import Mathlib

/-!
# Verification of the mpcium-client-ts signed-request protocol layer

Shallow embedding of the TypeScript client (`src/utils.ts`, `src/client.ts`,
`src/types.ts`) for the mpcium MPC service: canonical message signing with an
Ed25519 identity key, key loading, stream/consumer provisioning, publishing
with durable/best-effort fallback, and the per-message ack/terminate handling
of delivered results.

Conventions of the embedding:
* byte buffers are `List Nat`; the strings handed to `Buffer.from` are kept as
  Lean `String`s (`Buffer.from(s)` is the UTF-8 encoding of `s`, which is
  injective, so equality and inequality of signed byte buffers coincide with
  equality of the strings);
* the Ed25519 primitive of the `@noble/ed25519` library is RFC 8032
  deterministic signing, so it is modelled as an arbitrary pure function
  `edRaw : String → List Nat → String` passed as a parameter; the library
  itself rejects private keys that are not exactly 32 bytes, modelled in
  `nobleSign`;
* fallible TypeScript code (`throw`) is modelled with `Except`.
-/

/-! ## JSON serialization (model of JSON.stringify on the shapes the client serializes)

The client serializes flat objects whose values are strings, string arrays and
numbers (`JSON.stringify` in `signSignTxMessage`, `signResharingMessage`,
`signMessage`).  `JVal` covers exactly those value shapes and `renderObj`
renders an object literal with the fields in the given order, as
`JSON.stringify` does for TypeScript object literals (insertion order, no
whitespace). -/

/-- One escaped JSON character, following JSON.stringify's escaping rules. -/
def escapeChar (c : Char) : List Char :=
  if c = '"' then ['\\', '"']
  else if c = '\\' then ['\\', '\\']
  else if c = '\n' then ['\\', 'n']
  else if c = '\r' then ['\\', 'r']
  else if c = '\t' then ['\\', 't']
  else if c.toNat = 8 then ['\\', 'b']
  else if c.toNat = 12 then ['\\', 'f']
  else if c.toNat < 32 then
    ['\\', 'u', '0', '0', Nat.digitChar (c.toNat / 16), Nat.digitChar (c.toNat % 16)]
  else [c]

/-- A JSON string literal: quotes around the escaped characters. -/
def jstr (s : String) : String :=
  "\"" ++ String.mk (s.data.map escapeChar).flatten ++ "\""

/-- Comma-join, as in a JSON array/object body. -/
def joinComma : List String → String
  | [] => ""
  | [x] => x
  | x :: xs => x ++ "," ++ joinComma xs

/-- JSON values occurring in the signed payloads of this client:
strings, naturals (the `new_threshold` field) and string arrays (`node_ids`). -/
inductive JVal where
  | str (s : String)
  | num (n : Nat)
  | strArr (xs : List String)
deriving DecidableEq, Repr

/-- Render one JSON value. -/
def JVal.render : JVal → String
  | .str s => jstr s
  | .num n => toString n
  | .strArr xs => "[" ++ joinComma (xs.map jstr) ++ "]"

/-- Render a JSON object with fields in the given (insertion) order,
exactly as `JSON.stringify` renders a TypeScript object literal. -/
def renderObj (fields : List (String × JVal)) : String :=
  "\x7b" ++ joinComma (fields.map fun p => jstr p.1 ++ ":" ++ p.2.render) ++ "\x7d"

/-! ## Data model (`src/types.ts`) -/

/-- `KeyType` string enum from `types.ts`. -/
inductive KeyType where
  | secp256k1
  | ed25519
deriving DecidableEq, Repr

/-- The string value of a `KeyType` member (TS string enums serialize to their value). -/
def KeyType.toStr : KeyType → String
  | .secp256k1 => "secp256k1"
  | .ed25519 => "ed25519"

/-- `GenerateKeyMessage` from `types.ts`: `wallet_id` plus optional `signature`. -/
structure GenerateKeyMessage where
  wallet_id : String
  signature : Option String := none
deriving DecidableEq, Repr

/-- `SignTxMessage` from `types.ts`. -/
structure SignTxMessage where
  key_type : KeyType
  wallet_id : String
  network_internal_code : String
  tx_id : String
  tx : String
  signature : Option String := none
deriving DecidableEq, Repr

/-- `ResharingMessage` from `types.ts`. -/
structure ResharingMessage where
  session_id : String
  node_ids : List String
  new_threshold : Nat
  key_type : KeyType
  wallet_id : String
  signature : Option String := none
deriving DecidableEq, Repr

/-! ## Canonical signing (`src/utils.ts`) -/

/-- Error kinds raised by the signing functions: `signingError` is the repo's
wrapped sign-time error (`Error("Ed25519 signing error: ...")`, produced by
the explicit length check or the surrounding try/catch); `libError` is an
error of the underlying `@noble/ed25519` library propagating unwrapped. -/
inductive SignError where
  | signingError (msg : String)
  | libError (msg : String)
deriving DecidableEq, Repr

/-- Whether a signing result failed with the repo's wrapped sign-time error. -/
def isSigningErrorResult : Except SignError String → Bool
  | .error (.signingError _) => true
  | _ => false

/-- Model of `ed25519.sign` of `@noble/ed25519` (RFC 8032 deterministic
signing): a pure function `edRaw` of the message and key; the library throws
on private keys that are not exactly 32 bytes. -/
def nobleSign (edRaw : String → List Nat → String) (msg : String) (key : List Nat) :
    Except String String :=
  if key.length = 32 then .ok (edRaw msg key)
  else .error ("Expected 32 bytes of private key, got length=" ++ toString key.length)

/-- The try/catch of `signMessage`/`signGenerateKeyMessage`/`signSignTxMessage`:
any error thrown inside is rethrown as `Error("Ed25519 signing error: ...")`. -/
def wrapSigning : Except String String → Except SignError String
  | .ok s => .ok s
  | .error e => .error (.signingError ("Ed25519 signing error: Error: " ++ e))

/-- The data signed for a wallet-generation request (`signGenerateKeyMessage`):
the comment in the source says "Go implementation just signs the wallet ID
directly", and the code sets `dataToSign = msg.wallet_id` — the raw wallet id
string, not a JSON serialization. -/
def dataSignedGenerateKey (m : GenerateKeyMessage) : String :=
  m.wallet_id

/-- The field list serialized for signing a transaction request
(`signSignTxMessage`'s `dataToSign` object literal, in source order). -/
def signTxSignedFields (m : SignTxMessage) : List (String × JVal) :=
  [("key_type", .str m.key_type.toStr),
   ("wallet_id", .str m.wallet_id),
   ("network_internal_code", .str m.network_internal_code),
   ("tx_id", .str m.tx_id),
   ("tx", .str m.tx)]

/-- The data signed for a transaction request: `JSON.stringify(dataToSign)`. -/
def dataSignedSignTx (m : SignTxMessage) : String :=
  renderObj (signTxSignedFields m)

/-- The field list serialized for signing a resharing request
(`signResharingMessage`'s `msgWithoutSignature` object literal, in source order). -/
def resharingSignedFields (m : ResharingMessage) : List (String × JVal) :=
  [("session_id", .str m.session_id),
   ("node_ids", .strArr m.node_ids),
   ("new_threshold", .num m.new_threshold),
   ("key_type", .str m.key_type.toStr),
   ("wallet_id", .str m.wallet_id)]

/-- The data signed for a resharing request: `JSON.stringify(msgWithoutSignature)`. -/
def dataSignedResharing (m : ResharingMessage) : String :=
  renderObj (resharingSignedFields m)

/-- `signGenerateKeyMessage` from `utils.ts`: explicit 32-byte length check,
then `ed25519.sign` over the raw wallet id, all inside a try/catch that wraps
any error as the signing error. -/
def signGenerateKeyMessage (edRaw : String → List Nat → String)
    (m : GenerateKeyMessage) (key : List Nat) : Except SignError String :=
  if key.length ≠ 32 then
    .error (.signingError ("Ed25519 signing error: Error: Invalid Ed25519 private key length: "
      ++ toString key.length ++ ", expected 32 bytes"))
  else wrapSigning (nobleSign edRaw (dataSignedGenerateKey m) key)

/-- `signSignTxMessage` from `utils.ts`: JSON-serializes the five non-signature
fields, checks the key length, signs, wrapping any error. -/
def signSignTxMessage (edRaw : String → List Nat → String)
    (m : SignTxMessage) (key : List Nat) : Except SignError String :=
  if key.length ≠ 32 then
    .error (.signingError ("Ed25519 signing error: Error: Invalid Ed25519 private key length: "
      ++ toString key.length ++ ", expected 32 bytes"))
  else wrapSigning (nobleSign edRaw (dataSignedSignTx m) key)

/-- `signResharingMessage` from `utils.ts`: JSON-serializes the five
non-signature fields and calls `ed25519.sign` directly — no length check of
its own and no try/catch, so a library error propagates unwrapped. -/
def signResharingMessage (edRaw : String → List Nat → String)
    (m : ResharingMessage) (key : List Nat) : Except SignError String :=
  match nobleSign edRaw (dataSignedResharing m) key with
  | .ok s => .ok s
  | .error e => .error (.libError e)

/-- Modelled from the spec: "The encoding is the UTF-8 bytes of a deterministic
structured serialization (stable key order, no whitespace ambiguity) of exactly
those fields, excluding the signature field itself", applied to the GenerateKey
variant, whose only non-signature field is `wallet_id`. -/
def specCanonicalGenerateKey (m : GenerateKeyMessage) : String :=
  renderObj [("wallet_id", .str m.wallet_id)]

/-! ## Identity key loading (`loadPrivateKey`, `loadEncryptedPrivateKey`,
`MpciumClient.create`)

The file system is modelled as a partial map `fs : String → Option String`
(`readFileSync` throws exactly when the map is `none`); the age decryption of
`loadEncryptedPrivateKey` is likewise a partial map
`decrypt : String → String → Option String` from (path, passphrase) to the
decrypted text. -/

/-- JavaScript `String.prototype.trim`: strip whitespace from both ends. -/
def jsWhitespace (c : Char) : Bool :=
  c = ' ' || c = '\n' || c = '\t' || c = '\r' || c = '\x0b' || c = '\x0c'

/-- Trim on a character list (both ends). -/
def jsTrim (cs : List Char) : List Char :=
  ((cs.dropWhile jsWhitespace).reverse.dropWhile jsWhitespace).reverse

/-- Value of one hexadecimal digit (both cases), `none` for a non-hex character. -/
def hexVal (c : Char) : Option Nat :=
  let n := c.toNat
  if 48 ≤ n && n ≤ 57 then some (n - 48)
  else if 97 ≤ n && n ≤ 102 then some (n - 87)
  else if 65 ≤ n && n ≤ 70 then some (n - 55)
  else none

/-- Node's `Buffer.from(str, "hex")`: decode two characters at a time, and stop
silently (returning the bytes decoded so far) at the first invalid pair or odd
trailing character.  It never throws on malformed input. -/
def hexDecode : List Char → List Nat
  | a :: b :: rest =>
    match hexVal a, hexVal b with
    | some hi, some lo => (16 * hi + lo) :: hexDecode rest
    | _, _ => []
  | _ => []

/-- Errors of key loading and client construction. -/
inductive CreateError where
  | keyLoadError (msg : String)
  | noPassword
deriving DecidableEq, Repr

deriving instance DecidableEq for Except

/-- `loadPrivateKey` from `utils.ts`: read the file, trim, hex-decode.  The
only throwing operation inside the try block is the file read; the hex decode
is Node's lenient `Buffer.from(keyHex, "hex")`, and no length or hex-validity
check is performed. -/
def loadPrivateKey (fs : String → Option String) (path : String) :
    Except CreateError (List Nat) :=
  match fs path with
  | none => .error (.keyLoadError "Failed to load private key")
  | some content => .ok (hexDecode (jsTrim content.data))

/-- `loadEncryptedPrivateKey` from `utils.ts`: decrypt the file with the
passphrase, trim, hex-decode leniently; a read/decrypt failure is wrapped. -/
def loadEncryptedPrivateKey (decrypt : String → String → Option String)
    (path passphrase : String) : Except CreateError (List Nat) :=
  match decrypt path passphrase with
  | none => .error (.keyLoadError "Failed to decrypt key file")
  | some content => .ok (hexDecode (jsTrim content.data))

/-- JavaScript `keyPath.endsWith(".age")`. -/
def endsWithAge (s : String) : Bool :=
  [Char.ofNat 46, 'a', 'g', 'e'].isSuffixOf s.data

/-- Client state: the identity key held by a constructed `MpciumClient`. -/
structure MpciumClient where
  privateKey : List Nat
deriving DecidableEq, Repr

/-- `MpciumClient.create` from `client.ts`: choose the encrypted path when the
explicit flag is set or the file name ends in `.age` (a missing password then
throws); otherwise load the plaintext key.  No key-length validation happens
at construction. -/
def MpciumClient.create (fs : String → Option String)
    (decrypt : String → String → Option String)
    (keyPath : String) (password : Option String) (encrypted : Bool) :
    Except CreateError MpciumClient :=
  let isEncrypted := encrypted || endsWithAge keyPath
  if isEncrypted then
    match password with
    | none => .error .noPassword
    | some pw =>
      match loadEncryptedPrivateKey decrypt keyPath pw with
      | .error e => .error e
      | .ok k => .ok ⟨k⟩
  else
    match loadPrivateKey fs keyPath with
    | .error e => .error e
    | .ok k => .ok ⟨k⟩

/-! ## JetStream provisioning (`ensureStreamsExist`, stream/consumer setup in
`onWalletCreationResult` / `onSignResult` / `onResharingResult`)

The broker (NATS JetStream) is modelled sequentially: a state holding the
existing streams (name and subject filters) and durable consumers
(stream name, durable name).  `streams.info` succeeds iff the stream name is
present; `streams.add` fails with api error code 10065 when the new subjects
overlap an existing stream's subjects, and with code 10058 when the name is
already in use; `consumers.add` fails when the target stream is missing. -/

/-- A JetStream stream configuration: name and subject filters. -/
structure StreamCfg where
  name : String
  subjects : List String
deriving DecidableEq, Repr

/-- Broker-side state: existing streams and durable consumers. -/
structure BrokerState where
  streams : List StreamCfg
  consumers : List (String × String)
deriving DecidableEq, Repr

/-- JetStream api errors relevant to provisioning, with their `err_code`. -/
inductive ProvisionError where
  | jsUnavailable
  | overlapErr
  | nameInUse
  | streamNotFound
  | otherErr (code : Nat)
deriving DecidableEq, Repr

/-- The `api_error.err_code` of a provisioning error (10065 = subjects overlap
with an existing stream, the one code the client tolerates). -/
def ProvisionError.errCode : ProvisionError → Nat
  | .jsUnavailable => 0
  | .overlapErr => 10065
  | .nameInUse => 10058
  | .streamNotFound => 10059
  | .otherErr c => c

/-- `jsm.streams.info(name)` succeeds iff a stream of that name exists. -/
def streamIsPresent (s : BrokerState) (name : String) : Bool :=
  s.streams.any fun c => c.name == name

/-- Two subject-filter lists overlap when they share a subject. -/
def subjectsOverlap (a b : List String) : Bool :=
  a.any fun x => b.contains x

/-- `jsm.consumers.info(stream, durable)` succeeds iff the durable consumer exists. -/
def consumerIsPresent (s : BrokerState) (stream durable : String) : Bool :=
  s.consumers.any fun p => p.1 == stream && p.2 == durable

/-- `jsm.streams.add(cfg)`: rejected when the name is taken (10058) or the
subjects overlap an existing stream (10065); otherwise the stream is created. -/
def addStream (s : BrokerState) (cfg : StreamCfg) : Except ProvisionError BrokerState :=
  if streamIsPresent s cfg.name then .error .nameInUse
  else if s.streams.any (fun c => subjectsOverlap c.subjects cfg.subjects) then
    .error .overlapErr
  else .ok { s with streams := cfg :: s.streams }

/-- `jsm.consumers.add(stream, {durable_name, ...})`: fails when the stream is
missing; creating an already-present identical durable consumer is a broker
no-op. -/
def addConsumer (s : BrokerState) (stream durable : String) :
    Except ProvisionError BrokerState :=
  if streamIsPresent s stream then
    if consumerIsPresent s stream durable then .ok s
    else .ok { s with consumers := (stream, durable) :: s.consumers }
  else .error .streamNotFound

/-- The ensure-stream pattern of `client.ts` (`ensureStreamsExist` and the
result-subscription setups): `streams.info`; if it throws, `streams.add`
inside a try/catch that tolerates exactly api error code 10065 ("subjects
overlap") and rethrows anything else. -/
def ensureStream (s : BrokerState) (cfg : StreamCfg) : Except ProvisionError BrokerState :=
  if streamIsPresent s cfg.name then .ok s
  else
    match addStream s cfg with
    | .ok s2 => .ok s2
    | .error e => if e.errCode = 10065 then .ok s else .error e

/-- The ensure-consumer pattern of the result subscriptions: `consumers.info`;
if it throws, `consumers.add` with no surrounding catch — every creation
failure propagates. -/
def ensureConsumer (s : BrokerState) (stream durable : String) :
    Except ProvisionError BrokerState :=
  if consumerIsPresent s stream durable then .ok s
  else addConsumer s stream durable

/-- Stream configuration created by `ensureStreamsExist` for keygen requests. -/
def keygenStreamCfg : StreamCfg :=
  ⟨"mpc-keygen", ["mpc.keygen_request.*"]⟩

/-- Stream configuration created by `ensureStreamsExist` for signing requests. -/
def signingStreamCfg : StreamCfg :=
  ⟨"mpc-signing", ["mpc.signing_request.*"]⟩

/-- `ensureStreamsExist` from `client.ts`: first the JetStream availability
probe (`checkJetStreamAvailability`, which makes the whole call throw when the
broker has no JetStream), then the ensure-stream pattern for the keygen and
signing request streams. -/
def ensureStreamsExist (avail : Bool) (s : BrokerState) :
    Except ProvisionError BrokerState :=
  if avail = false then .error .jsUnavailable
  else
    match ensureStream s keygenStreamCfg with
    | .error e => .error e
    | .ok s1 => ensureStream s1 signingStreamCfg

/-! ## Result consumption (the `for await` loops of `onWalletCreationResult`,
`onSignResult`, `onResharingResult`)

Each delivered message is processed as
`try { event = decode(m.data); callback(event); m.ack(); } catch { m.term(); }`:
the decode and the callback run inside one try block whose catch calls
`m.term()`.  The decoder is a parameter `decode : String → Option ε` (the
`JSONCodec` decode, failing on malformed payloads) and the caller's callback is
represented by the set of events on which it throws. -/

/-- The three terminal dispositions of a delivered JetStream message. -/
inductive Disposition where
  | ack
  | nak
  | term
deriving DecidableEq, Repr

/-- Observable outcome of processing one delivered message: the events handed
to the caller's callback (in order) and the message's final disposition. -/
structure DeliveryOutcome (ε : Type) where
  callbackEvents : List ε
  disposition : Disposition
deriving DecidableEq, Repr

/-- One iteration of the result-consumption loop in `client.ts`, common to the
three result categories. -/
def processResultMessage {ε : Type} (decode : String → Option ε)
    (callbackThrows : ε → Bool) (data : String) : DeliveryOutcome ε :=
  match decode data with
  | none => ⟨[], .term⟩
  | some ev => ⟨[ev], if callbackThrows ev then .term else .ack⟩

/-! ## Request publishing (`createWallet`, `signTransaction`, `reshareKeys`)

A publish record tracks the subject and whether the publish went over the
durable JetStream path (`js.publish`) or plain core NATS (`nc.publish`).
`createWallet` and `signTransaction` run
`try { ensureStreamsExist(); js.publish(...) } catch { nc.publish(...) }`;
`reshareKeys` calls `nc.publish` unconditionally.  Fresh UUIDs (`uuidv4()`)
are passed in as the `freshId` parameter. -/

/-- One publish attempt: target subject and whether it used the durable path. -/
structure PubRec where
  subject : String
  durable : Bool
deriving DecidableEq, Repr

/-- Whether the durable publish path succeeds from broker state `s` with
JetStream availability `avail` (the condition under which the try block of
`createWallet`/`signTransaction` completes without throwing). -/
def durableAvailable (avail : Bool) (s : BrokerState) : Bool :=
  match ensureStreamsExist avail s with
  | .ok _ => true
  | .error _ => false

/-- `createWallet` from `client.ts`: use the given wallet id or a fresh UUID,
sign the one-field message, then try the durable publish of
`mpc.keygen_request`, falling back to a core-NATS publish of the same subject
on any error; the wallet id is returned either way. -/
def createWallet (edRaw : String → List Nat → String) (avail : Bool)
    (s : BrokerState) (walletIdOpt : Option String) (freshId : String)
    (key : List Nat) : Except SignError (String × List PubRec) :=
  let id := walletIdOpt.getD freshId
  let msg : GenerateKeyMessage := { wallet_id := id }
  match signGenerateKeyMessage edRaw msg key with
  | .error e => .error e
  | .ok _ =>
    if durableAvailable avail s then .ok (id, [⟨"mpc.keygen_request", true⟩])
    else .ok (id, [⟨"mpc.keygen_request", false⟩])

/-- `signTransaction` from `client.ts`: always generates a fresh transaction
id, signs the five-field message, then tries the durable publish of
`mpc.signing_request.<txId>`, falling back to core NATS on the same subject. -/
def signTransaction (edRaw : String → List Nat → String) (avail : Bool)
    (s : BrokerState) (walletId : String) (keyType : KeyType)
    (networkInternalCode : String) (tx : String) (txId : String)
    (key : List Nat) : Except SignError (String × List PubRec) :=
  let msg : SignTxMessage :=
    { key_type := keyType, wallet_id := walletId,
      network_internal_code := networkInternalCode, tx_id := txId, tx := tx }
  match signSignTxMessage edRaw msg key with
  | .error e => .error e
  | .ok _ =>
    if durableAvailable avail s then
      .ok (txId, [⟨"mpc.signing_request." ++ txId, true⟩])
    else .ok (txId, [⟨"mpc.signing_request." ++ txId, false⟩])

/-- `reshareKeys` from `client.ts`: use the given session id or a fresh UUID,
sign the resharing message, and publish it on `mpc:reshare` with core NATS
only ("Use core NATS to publish (matching Go implementation)") — the durable
path is never attempted, whatever the JetStream availability. -/
def reshareKeys (edRaw : String → List Nat → String) (avail : Bool)
    (s : BrokerState) (sessionIdOpt : Option String) (walletId : String)
    (nodeIds : List String) (newThreshold : Nat) (keyType : KeyType)
    (freshId : String) (key : List Nat) : Except SignError (String × List PubRec) :=
  let sessionId := sessionIdOpt.getD freshId
  let msg : ResharingMessage :=
    { session_id := sessionId, node_ids := nodeIds, new_threshold := newThreshold,
      key_type := keyType, wallet_id := walletId }
  match signResharingMessage edRaw msg key with
  | .error e => .error e
  | .ok _ => .ok (sessionId, [⟨"mpc:reshare", false⟩])

/-! ## Concrete instances for witnesses and counterexamples -/

/-- A concrete Ed25519 core-signing function (the claims hold for every
implementation of the primitive, this one instantiates them). -/
def edRaw0 : String → List Nat → String := fun m _ => m

/-- A concrete well-formed 32-byte key. -/
def key32 : List Nat := List.replicate 32 0

/-- A concrete malformed 31-byte key. -/
def key31 : List Nat := List.replicate 31 0

/-- A concrete transaction-signing request. -/
def tMsg0 : SignTxMessage :=
  ⟨.ed25519, "w1", "ethereum", "t1", "0xdead", none⟩

/-- A concrete resharing request. -/
def rMsg0 : ResharingMessage :=
  ⟨"s1", ["n1", "n2"], 2, .ed25519, "w1", none⟩

/-- A 62-character hex text (decoding to 31 bytes), the content of a 31-byte key file. -/
def hex62 : String := String.mk (List.replicate 31 ['a', 'b']).flatten

/-! ## Theorems -/

/-- C1 (counterexample): for the GenerateKey variant the bytes fed to Ed25519
signing are the raw UTF-8 bytes of the wallet id, not the UTF-8 bytes of a
JSON serialization of the variant's non-signature fields: at
`wallet_id = "w1"` the code signs `"w1"` while the spec's encoding is
`{"wallet_id":"w1"}`. -/
theorem generateKeySignedBytesCex :
    dataSignedGenerateKey { wallet_id := "w1" } = "w1" ∧
    specCanonicalGenerateKey { wallet_id := "w1" } = "\x7b\"wallet_id\":\"w1\"\x7d" ∧
    dataSignedGenerateKey { wallet_id := "w1" }
      ≠ specCanonicalGenerateKey { wallet_id := "w1" } ∧
    signGenerateKeyMessage edRaw0 { wallet_id := "w1" } key32 = .ok "w1" := by
  refine ⟨rfl, by decide, by decide, by decide⟩

/-- C1 (amended): for the SignTx and Reshare variants the signed bytes are the
UTF-8 bytes of the JSON serialization of exactly the variant's non-signature
fields (in the fixed source order); for the GenerateKey variant the signed
bytes are the raw UTF-8 bytes of the `wallet_id` field alone, with no JSON
structure. -/
theorem signedBytesPerVariant (g : GenerateKeyMessage) (t : SignTxMessage)
    (r : ResharingMessage) :
    dataSignedGenerateKey g = g.wallet_id ∧
    dataSignedSignTx t = renderObj (signTxSignedFields t) ∧
    (signTxSignedFields t).map Prod.fst
      = ["key_type", "wallet_id", "network_internal_code", "tx_id", "tx"] ∧
    dataSignedResharing r = renderObj (resharingSignedFields r) ∧
    (resharingSignedFields r).map Prod.fst
      = ["session_id", "node_ids", "new_threshold", "key_type", "wallet_id"] := by
  exact ⟨rfl, rfl, rfl, rfl, rfl⟩

/-- C2 (confirmed): the fields fed into the signed encoding of a resharing
request appear in exactly the fixed order session id, node id list, new
threshold, key type, wallet id, and the signed data is the rendering of that
ordered field list. -/
theorem resharingFieldOrder (m : ResharingMessage) :
    (resharingSignedFields m).map Prod.fst
      = ["session_id", "node_ids", "new_threshold", "key_type", "wallet_id"] ∧
    dataSignedResharing m = renderObj (resharingSignedFields m) := by
  exact ⟨rfl, rfl⟩

/-- C4 (confirmed): when decoding a delivered result message fails, the message
reaches the terminate disposition and the caller's callback is never invoked
(the outcome hands no event to the callback). -/
theorem decodeFailureTerminates {ε : Type} (decode : String → Option ε)
    (callbackThrows : ε → Bool) (data : String) (h : decode data = none) :
    processResultMessage decode callbackThrows data = ⟨[], .term⟩ := by
  simp [processResultMessage, h]

/-- C4 witness: a decoder rejecting everything sends the message to terminate
without invoking the callback. -/
theorem decodeFailureTerminates_witness :
    (fun _ : String => (none : Option Nat)) "payload" = none ∧
    processResultMessage (fun _ : String => (none : Option Nat))
      (fun _ : Nat => false) "payload" = ⟨[], .term⟩ := by
  exact ⟨rfl, decodeFailureTerminates _ _ _ rfl⟩

/-- C3 (counterexample): a delivered message whose decode succeeds but whose
callback throws is terminated, not negatively acknowledged: the disposition is
`term`, not `nak`, so the message is permanently dropped instead of being
redelivered. -/
theorem callbackThrowTermCex :
    processResultMessage (fun _ : String => some (0 : Nat)) (fun _ : Nat => true)
      "payload" = ⟨[0], .term⟩ ∧
    Disposition.term ≠ Disposition.nak := by
  exact ⟨rfl, by decide⟩

/-- C3 (amended): when the decode of a delivered result message succeeds and
the caller's callback throws on the decoded event, the callback is invoked
exactly once with that event and the message reaches the terminate disposition
(permanently dropped, the same as a decode failure); it is not negatively
acknowledged and not redelivered. -/
theorem callbackThrowTerminates {ε : Type} (decode : String → Option ε)
    (callbackThrows : ε → Bool) (data : String) (ev : ε)
    (h1 : decode data = some ev) (h2 : callbackThrows ev = true) :
    processResultMessage decode callbackThrows data = ⟨[ev], .term⟩ := by
  simp [processResultMessage, h1, h2]

/-- C3 witness: a concrete decoder and throwing callback reach terminate after
one callback invocation. -/
theorem callbackThrowTerminates_witness :
    (fun _ : String => some (7 : Nat)) "payload" = some 7 ∧
    (fun _ : Nat => true) 7 = true ∧
    processResultMessage (fun _ : String => some (7 : Nat)) (fun _ : Nat => true)
      "payload" = ⟨[7], .term⟩ := by
  exact ⟨rfl, rfl, callbackThrowTerminates _ _ _ _ rfl rfl⟩

/-- C10 (confirmed): for each of the three signing functions, the produced
signature is independent of any pre-populated signature field on the input
message: signing with the signature field set to any value yields the same
result as signing with the signature field absent. -/
theorem signatureFieldIndependent (edRaw : String → List Nat → String)
    (key : List Nat) (sOpt : Option String) (g : GenerateKeyMessage)
    (t : SignTxMessage) (r : ResharingMessage) :
    signGenerateKeyMessage edRaw { g with signature := sOpt } key
      = signGenerateKeyMessage edRaw { g with signature := none } key ∧
    signSignTxMessage edRaw { t with signature := sOpt } key
      = signSignTxMessage edRaw { t with signature := none } key ∧
    signResharingMessage edRaw { r with signature := sOpt } key
      = signResharingMessage edRaw { r with signature := none } key := by
  exact ⟨rfl, rfl, rfl⟩

/-- C9 (confirmed): for every 32-byte key and each request variant, the
signature is a deterministic function of the non-signature field set and the
key: two messages agreeing on all non-signature fields sign to byte-identical
results (in particular, re-signing the same message twice gives identical
bytes), with no randomness or time dependency in the model. -/
theorem signingDeterministic (edRaw : String → List Nat → String)
    (key : List Nat) (hk : key.length = 32)
    (g g2 : GenerateKeyMessage) (t t2 : SignTxMessage) (r r2 : ResharingMessage)
    (hg : g.wallet_id = g2.wallet_id)
    (ht : t.key_type = t2.key_type ∧ t.wallet_id = t2.wallet_id ∧
      t.network_internal_code = t2.network_internal_code ∧
      t.tx_id = t2.tx_id ∧ t.tx = t2.tx)
    (hr : r.session_id = r2.session_id ∧ r.node_ids = r2.node_ids ∧
      r.new_threshold = r2.new_threshold ∧ r.key_type = r2.key_type ∧
      r.wallet_id = r2.wallet_id) :
    signGenerateKeyMessage edRaw g key = signGenerateKeyMessage edRaw g2 key ∧
    signSignTxMessage edRaw t key = signSignTxMessage edRaw t2 key ∧
    signResharingMessage edRaw r key = signResharingMessage edRaw r2 key := by
  obtain ⟨ht1, ht2, ht3, ht4, ht5⟩ := ht
  obtain ⟨hr1, hr2, hr3, hr4, hr5⟩ := hr
  refine ⟨?_, ?_, ?_⟩ <;>
    simp [signGenerateKeyMessage, signSignTxMessage, signResharingMessage,
      dataSignedGenerateKey, dataSignedSignTx, dataSignedResharing,
      signTxSignedFields, resharingSignedFields, hg, ht1, ht2, ht3, ht4, ht5,
      hr1, hr2, hr3, hr4, hr5]

/-- C9 witness: with a concrete 32-byte key, messages differing only in their
signature fields sign identically across all three variants. -/
theorem signingDeterministic_witness :
    key32.length = 32 ∧
    (signGenerateKeyMessage edRaw0 ⟨"w1", none⟩ key32
        = signGenerateKeyMessage edRaw0 ⟨"w1", some "old"⟩ key32 ∧
      signSignTxMessage edRaw0 tMsg0 key32
        = signSignTxMessage edRaw0 { tMsg0 with signature := some "old" } key32 ∧
      signResharingMessage edRaw0 rMsg0 key32
        = signResharingMessage edRaw0 { rMsg0 with signature := some "old" } key32) := by
  exact ⟨by decide,
    signingDeterministic edRaw0 key32 (by decide) ⟨"w1", none⟩ ⟨"w1", some "old"⟩
      tMsg0 { tMsg0 with signature := some "old" }
      rMsg0 { rMsg0 with signature := some "old" }
      rfl ⟨rfl, rfl, rfl, rfl, rfl⟩ ⟨rfl, rfl, rfl, rfl, rfl⟩⟩

/-- Helper for C5: the ensure-stream pattern is idempotent — a successful call
leaves a state on which the same call succeeds with the same state. -/
lemma ensureStream_idem (s s2 : BrokerState) (cfg : StreamCfg)
    (h : ensureStream s cfg = .ok s2) : ensureStream s2 cfg = .ok s2 := by
  by_cases hp : streamIsPresent s cfg.name
  · simp [ensureStream, hp] at h
    subst h
    simp [ensureStream, hp]
  · by_cases hov : s.streams.any fun c => subjectsOverlap c.subjects cfg.subjects
    · simp [ensureStream, addStream, hp, hov, ProvisionError.errCode] at h
      subst h
      simp [ensureStream, addStream, hp, hov, ProvisionError.errCode]
    · simp [ensureStream, addStream, hp, hov] at h
      subst h
      simp [ensureStream, streamIsPresent]

/-- Helper for C5: the ensure-consumer pattern is idempotent. -/
lemma ensureConsumer_idem (t t2 : BrokerState) (stream durable : String)
    (h : ensureConsumer t stream durable = .ok t2) :
    ensureConsumer t2 stream durable = .ok t2 := by
  by_cases hc : consumerIsPresent t stream durable
  · simp [ensureConsumer, hc] at h
    subst h
    simp [ensureConsumer, hc]
  · by_cases hs : streamIsPresent t stream
    · simp [ensureConsumer, addConsumer, hc, hs] at h
      subst h
      simp [ensureConsumer, consumerIsPresent]
    · simp [ensureConsumer, addConsumer, hc, hs] at h

/-- Helper for C5: a propagated stream-provisioning error is never the
"subjects overlap" error (api code 10065) — that one is swallowed. -/
lemma ensureStream_error_not_overlap (s : BrokerState) (cfg : StreamCfg)
    (e : ProvisionError) (h : ensureStream s cfg = .error e) :
    e.errCode ≠ 10065 := by
  by_cases hp : streamIsPresent s cfg.name
  · simp [ensureStream, hp] at h
  · cases ha : addStream s cfg with
    | ok s3 => simp [ensureStream, hp, ha] at h
    | error e0 =>
      by_cases hc : e0.errCode = 10065
      · simp [ensureStream, hp, ha, hc] at h
      · simp [ensureStream, hp, ha, hc] at h
        subst h
        exact hc

/-- C5 (confirmed): provisioning is idempotent — `ensureStream` and
`ensureConsumer` called twice in a row with identical arguments on the same
broker state never raise on the second call — a creation failure caused by an
overlapping subject filter (api error 10065) is treated as success, and a
propagated provisioning error is never that overlap error. -/
theorem ensureProvisioningIdempotent (s s2 t t2 : BrokerState) (cfg : StreamCfg)
    (stream durable : String) (e : ProvisionError) :
    (ensureStream s cfg = .ok s2 → ensureStream s2 cfg = .ok s2) ∧
    (ensureConsumer t stream durable = .ok t2 →
      ensureConsumer t2 stream durable = .ok t2) ∧
    (ensureStream s cfg = .error e → e.errCode ≠ 10065) := by
  exact ⟨ensureStream_idem s s2 cfg, ensureConsumer_idem t t2 stream durable,
    ensureStream_error_not_overlap s cfg e⟩

/-- C5 witness: on an empty broker, ensuring the `mpc` stream creates it and a
second identical call succeeds without change; likewise for the
`mpc_keygen_result` durable consumer. -/
theorem ensureProvisioningIdempotent_witness :
    ensureStream ⟨[], []⟩ ⟨"mpc", ["mpc.mpc_keygen_result.*"]⟩
      = .ok ⟨[⟨"mpc", ["mpc.mpc_keygen_result.*"]⟩], []⟩ ∧
    ensureStream ⟨[⟨"mpc", ["mpc.mpc_keygen_result.*"]⟩], []⟩
      ⟨"mpc", ["mpc.mpc_keygen_result.*"]⟩
      = .ok ⟨[⟨"mpc", ["mpc.mpc_keygen_result.*"]⟩], []⟩ ∧
    ensureConsumer ⟨[⟨"mpc", ["mpc.mpc_keygen_result.*"]⟩], []⟩
      "mpc" "mpc_keygen_result"
      = .ok ⟨[⟨"mpc", ["mpc.mpc_keygen_result.*"]⟩], [("mpc", "mpc_keygen_result")]⟩ ∧
    ensureConsumer ⟨[⟨"mpc", ["mpc.mpc_keygen_result.*"]⟩], [("mpc", "mpc_keygen_result")]⟩
      "mpc" "mpc_keygen_result"
      = .ok ⟨[⟨"mpc", ["mpc.mpc_keygen_result.*"]⟩], [("mpc", "mpc_keygen_result")]⟩ := by
  refine ⟨by decide, ?_, by decide, ?_⟩
  · exact (ensureProvisioningIdempotent ⟨[], []⟩ _ ⟨[], []⟩ ⟨[], []⟩ _ "" ""
      .jsUnavailable).1 (by decide)
  · exact (ensureProvisioningIdempotent ⟨[], []⟩ ⟨[], []⟩
      ⟨[⟨"mpc", ["mpc.mpc_keygen_result.*"]⟩], []⟩ _ ⟨"", []⟩ "mpc"
      "mpc_keygen_result" .jsUnavailable).2.1 (by decide)

/-- C6 (counterexample): with JetStream fully available (the durable path of
the other operations would succeed from this broker state), `reshareKeys`
still publishes over plain core NATS on `mpc:reshare` — it never attempts the
durable path. -/
theorem reshareNoDurableCex :
    durableAvailable true ⟨[], []⟩ = true ∧
    reshareKeys edRaw0 true ⟨[], []⟩ (some "s1") "w1" ["n1", "n2"] 2 .ed25519
      "fresh" key32 = .ok ("s1", [⟨"mpc:reshare", false⟩]) := by
  exact ⟨by decide, by decide⟩

/-- C6 (amended): `createWallet` and `signTransaction` attempt the durable
JetStream publish first and fall back to a best-effort core-NATS publish on
the same subject when the durable path is unavailable, returning the
correlation id either way; `reshareKeys` never attempts the durable path — it
always publishes best-effort on core NATS and returns the session id. -/
theorem publishPathsPerOperation (edRaw : String → List Nat → String)
    (avail : Bool) (s : BrokerState) (walletIdOpt : Option String)
    (freshWalletId walletId : String) (keyType : KeyType)
    (networkInternalCode tx txId : String) (sessionIdOpt : Option String)
    (nodeIds : List String) (newThreshold : Nat) (freshSessionId : String)
    (key : List Nat) (hk : key.length = 32) :
    createWallet edRaw avail s walletIdOpt freshWalletId key
      = .ok (walletIdOpt.getD freshWalletId,
          [⟨"mpc.keygen_request", durableAvailable avail s⟩]) ∧
    signTransaction edRaw avail s walletId keyType networkInternalCode tx txId key
      = .ok (txId, [⟨"mpc.signing_request." ++ txId, durableAvailable avail s⟩]) ∧
    reshareKeys edRaw avail s sessionIdOpt walletId nodeIds newThreshold keyType
      freshSessionId key
      = .ok (sessionIdOpt.getD freshSessionId, [⟨"mpc:reshare", false⟩]) := by
  refine ⟨?_, ?_, ?_⟩ <;>
    simp [createWallet, signTransaction, reshareKeys, signGenerateKeyMessage,
      signSignTxMessage, signResharingMessage, nobleSign, wrapSigning, hk] <;>
    cases hd : durableAvailable avail s <;> simp [hd]

/-- C6 witness: with the durable path down (`avail = false`), all three
operations still return their correlation id; the first two fall back to core
NATS on the same subject. -/
theorem publishPathsPerOperation_witness :
    key32.length = 32 ∧
    (createWallet edRaw0 false ⟨[], []⟩ none "fw" key32
        = .ok ("fw", [⟨"mpc.keygen_request", durableAvailable false ⟨[], []⟩⟩]) ∧
      signTransaction edRaw0 false ⟨[], []⟩ "w1" .secp256k1 "ethereum" "0xaa" "t9" key32
        = .ok ("t9", [⟨"mpc.signing_request." ++ "t9", durableAvailable false ⟨[], []⟩⟩]) ∧
      reshareKeys edRaw0 false ⟨[], []⟩ none "w1" ["n1"] 1 .secp256k1 "fs" key32
        = .ok ("fs", [⟨"mpc:reshare", false⟩])) := by
  exact ⟨by decide,
    publishPathsPerOperation edRaw0 false ⟨[], []⟩ none "fw" "w1" .secp256k1
      "ethereum" "0xaa" "t9" none ["n1"] 1 "fs" key32 (by decide)⟩

/-- C7 (counterexample): signing a resharing request with a 31-byte key does
not fail with the repo's wrapped SigningError: `signResharingMessage` has no
length check or try/catch of its own, so the raw library error surfaces
unwrapped, while the generate-key and sign-tx variants do produce the wrapped
SigningError for the same key. -/
theorem resharingKeyLenCex :
    signResharingMessage edRaw0 rMsg0 key31
      = .error (.libError "Expected 32 bytes of private key, got length=31") ∧
    isSigningErrorResult (signResharingMessage edRaw0 rMsg0 key31) = false ∧
    isSigningErrorResult (signSignTxMessage edRaw0 tMsg0 key31) = true ∧
    isSigningErrorResult (signGenerateKeyMessage edRaw0 ⟨"w1", none⟩ key31) = true := by
  exact ⟨by decide, by decide, by decide, by decide⟩

/-- C7 (amended): signing with a key whose length is not 32 bytes fails in
every variant, and the failure is confined to that operation's result; the
generate-key and sign-tx variants fail with the wrapped SigningError, while
the resharing variant, having no length check or catch of its own, surfaces
the underlying library error unwrapped. -/
theorem wrongKeyLengthSigningErrors (edRaw : String → List Nat → String)
    (key : List Nat) (g : GenerateKeyMessage) (t : SignTxMessage)
    (r : ResharingMessage) (hk : key.length ≠ 32) :
    isSigningErrorResult (signGenerateKeyMessage edRaw g key) = true ∧
    isSigningErrorResult (signSignTxMessage edRaw t key) = true ∧
    signResharingMessage edRaw r key
      = .error (.libError ("Expected 32 bytes of private key, got length="
          ++ toString key.length)) := by
  refine ⟨?_, ?_, ?_⟩ <;>
    simp [signGenerateKeyMessage, signSignTxMessage, signResharingMessage,
      nobleSign, isSigningErrorResult, hk]

/-- C7 witness: the amended statement at a concrete 31-byte key. -/
theorem wrongKeyLengthSigningErrors_witness :
    key31.length ≠ 32 ∧
    (isSigningErrorResult (signGenerateKeyMessage edRaw0 ⟨"w2", none⟩ key31) = true ∧
      isSigningErrorResult (signSignTxMessage edRaw0 tMsg0 key31) = true ∧
      signResharingMessage edRaw0 rMsg0 key31
        = .error (.libError ("Expected 32 bytes of private key, got length="
            ++ toString key31.length))) := by
  exact ⟨by decide,
    wrongKeyLengthSigningErrors edRaw0 key31 ⟨"w2", none⟩ tMsg0 rMsg0 (by decide)⟩

/-- C8 (counterexample): a 62-character (31-byte) hex key file constructs a
client successfully — neither `loadPrivateKey` nor `MpciumClient.create`
validates length — and non-hex content silently decodes to an empty buffer
instead of failing. -/
theorem keyLoadNoValidationCex :
    MpciumClient.create (fun _ => some hex62) (fun _ _ => none)
      "event_initiator.key" none false = .ok ⟨List.replicate 31 171⟩ ∧
    (List.replicate 31 (171 : Nat)).length = 31 ∧
    loadPrivateKey (fun _ => some "not hex content") "k.key" = .ok [] := by
  exact ⟨by decide, by decide, by decide⟩

/-- C8 (amended): on the plaintext path `loadPrivateKey` fails (with the
key-load error) exactly when the file cannot be read; readable content is
trimmed and hex-decoded leniently (invalid hex truncates silently) with no
length check, and client construction succeeds with whatever byte count
results — a 31-byte key file does not fail construction. -/
theorem keyLoadNoValidation (fs : String → Option String)
    (decrypt : String → String → Option String) (path content badPath : String)
    (hread : fs path = some content) (hplain : endsWithAge path = false)
    (hbad : fs badPath = none) :
    loadPrivateKey fs path = .ok (hexDecode (jsTrim content.data)) ∧
    MpciumClient.create fs decrypt path none false
      = .ok ⟨hexDecode (jsTrim content.data)⟩ ∧
    loadPrivateKey fs badPath = .error (.keyLoadError "Failed to load private key") := by
  refine ⟨?_, ?_, ?_⟩ <;>
    simp [loadPrivateKey, MpciumClient.create, hread, hplain, hbad]

/-- C8 witness: the amended statement at a concrete file system holding the
62-character hex file. -/
theorem keyLoadNoValidation_witness :
    ((fun p : String => if p = "k.key" then some hex62 else none) "k.key"
        = some hex62) ∧
    endsWithAge "k.key" = false ∧
    ((fun p : String => if p = "k.key" then some hex62 else none) "missing"
        = none) ∧
    (loadPrivateKey (fun p => if p = "k.key" then some hex62 else none) "k.key"
        = .ok (hexDecode (jsTrim hex62.data)) ∧
      MpciumClient.create (fun p => if p = "k.key" then some hex62 else none)
        (fun _ _ => none) "k.key" none false = .ok ⟨hexDecode (jsTrim hex62.data)⟩ ∧
      loadPrivateKey (fun p => if p = "k.key" then some hex62 else none) "missing"
        = .error (.keyLoadError "Failed to load private key")) := by
  exact ⟨by decide, by decide, by decide,
    keyLoadNoValidation _ _ "k.key" hex62 "missing" (by decide) (by decide)
      (by decide)⟩
